import Mathlib

/-!
Verification of `src/mlflow/projects/docker.py` (mlflow projects docker module).

The module has three leaf responsibilities:
* an image-tag deriver (`_get_docker_image_uri`),
* a build-context assembler (`_create_docker_build_ctx`, consumed by
  `build_docker_image`),
* a tracking-endpoint translator (`get_docker_tracking_cmd_and_envs` over
  `_get_local_uri_or_none`).

Pure string logic is embedded directly.  The Python standard-library helpers
`urllib.parse.urlparse` and `urllib.request.url2pathname` are embedded as
faithful character-level models of their CPython implementations (the parts
exercised here: scheme/netloc/params/query/fragment splitting and
percent-decoding; multi-byte UTF-8 percent sequences are modelled byte by
byte).  Filesystem effects are embedded as explicit state passing over a set
of existing staging directories plus an explicit failure oracle for each
fallible operation, and external collaborators (the git query, the docker
build engine, the platform-credential provider) are parameters.
-/

set_option autoImplicit false

namespace MlflowDocker

/-! ### Constants from `src/mlflow/projects/docker.py` -/

def _GENERATED_DOCKERFILE_NAME : String := "Dockerfile.mlflow-autogenerated"

def _MLFLOW_DOCKER_TRACKING_DIR_PATH : String := "/mlflow/tmp/mlruns"

def _PROJECT_TAR_ARCHIVE_NAME : String := "mlflow-project-docker-build-context"

/-- The staging subdirectory name: the inline literal in
`dst_path = os.path.join(directory, "mlflow-project-contents")` inside
`_create_docker_build_ctx`. -/
def _STAGING_SUBDIR_NAME : String := "mlflow-project-contents"

/-- Modelled from the spec: `tracking._TRACKING_URI_ENV_VAR` (module
`mlflow.tracking`, not under `src/`) is "the process's designated tracking-URI
variable name" (spec section 6); a fixed environment-variable key. -/
def _TRACKING_URI_ENV_VAR : String := "MLFLOW_TRACKING_URI"

/-! ### Model of `urllib.parse.urlparse`

Follows CPython's `urlsplit`/`urlparse` (the fields the source reads:
`scheme`, `netloc`, `path`).  Working representation is `List Char`. -/

/-- CPython `scheme_chars`: ASCII letters, digits, and `+`, `-`, `.`. -/
def isSchemeChar (c : Char) : Bool :=
  ('a' ≤ c && c ≤ 'z') || ('A' ≤ c && c ≤ 'Z') || ('0' ≤ c && c ≤ '9') ||
    c == '+' || c == '-' || c == '.'

/-- Split a character list at the first occurrence of `c`:
`some (before, after)` when `c` occurs, `none` otherwise. -/
def splitFirst : List Char → Char → Option (List Char × List Char)
  | [], _ => none
  | x :: xs, c =>
    if x = c then some ([], xs)
    else
      match splitFirst xs c with
      | some (a, b) => some (x :: a, b)
      | none => none

/-- Split a character list at the last occurrence of `c`. -/
def splitLast (l : List Char) (c : Char) : Option (List Char × List Char) :=
  match splitFirst l.reverse c with
  | some (revPost, revPre) => some (revPre.reverse, revPost.reverse)
  | none => none

structure SplitResult where
  scheme : List Char
  netloc : List Char
  url : List Char
  query : List Char
  fragment : List Char
deriving DecidableEq, Repr

/-- Model of CPython `urllib.parse.urlsplit` on characters: extract the scheme
(a nonempty all-scheme-chars run before the first colon, lower-cased), then a
netloc after a leading `//` up to the next `/`, `?` or `#`, then the fragment
after the first `#`, then the query after the first `?`. -/
def urlsplitL (url0 : List Char) : SplitResult :=
  let p1 : List Char × List Char :=
    match splitFirst url0 ':' with
    | some (pre, rest) =>
      if pre ≠ [] && pre.all isSchemeChar then (pre.map Char.toLower, rest)
      else ([], url0)
    | none => ([], url0)
  let scheme := p1.1
  let url1 := p1.2
  let p2 : List Char × List Char :=
    match url1 with
    | '/' :: '/' :: rest =>
      (rest.takeWhile (fun c => c ≠ '/' && c ≠ '?' && c ≠ '#'),
       rest.dropWhile (fun c => c ≠ '/' && c ≠ '?' && c ≠ '#'))
    | _ => ([], url1)
  let netloc := p2.1
  let url2 := p2.2
  let p3 : List Char × List Char :=
    match splitFirst url2 '#' with
    | some (a, b) => (a, b)
    | none => (url2, [])
  let url3 := p3.1
  let fragment := p3.2
  let p4 : List Char × List Char :=
    match splitFirst url3 '?' with
    | some (a, b) => (a, b)
    | none => (url3, [])
  ⟨scheme, netloc, p4.1, p4.2, fragment⟩

/-- CPython `urllib.parse.uses_params`: schemes for which `urlparse` splits a
`;params` suffix off the last path segment. -/
def uses_params : List String :=
  ["", "ftp", "hdl", "prospero", "http", "imap", "https", "shttp", "rtsp",
   "rtspu", "sip", "sips", "mms", "sftp", "tel"]

/-- Model of CPython `urllib.parse._splitparams`; only invoked when `;` occurs
in the remaining url, as in `urlparse`. -/
def splitparams (url : List Char) : List Char × List Char :=
  if '/' ∈ url then
    match splitLast url '/' with
    | some (pre, post) =>
      match splitFirst post ';' with
      | some (a, b) => (pre ++ '/' :: a, b)
      | none => (url, [])
    | none => (url, [])
  else
    match splitFirst url ';' with
    | some (a, b) => (a, b)
    | none => (url, [])

structure ParseResult where
  scheme : String
  netloc : String
  path : String
  params : String
  query : String
  fragment : String
deriving DecidableEq, Repr

/-- Model of `urllib.parse.urlparse`: `urlsplit` plus the params split for
schemes in `uses_params`. -/
def urlparse (uri : String) : ParseResult :=
  let r := urlsplitL uri.toList
  let pp : List Char × List Char :=
    if String.mk r.scheme ∈ uses_params ∧ ';' ∈ r.url then splitparams r.url
    else (r.url, [])
  { scheme := String.mk r.scheme
    netloc := String.mk r.netloc
    path := String.mk pp.1
    params := String.mk pp.2
    query := String.mk r.query
    fragment := String.mk r.fragment }

/-! ### Model of `urllib.request.url2pathname` (posix): percent-decoding. -/

def hexVal (c : Char) : Option Nat :=
  if '0' ≤ c ∧ c ≤ '9' then some (c.toNat - '0'.toNat)
  else if 'a' ≤ c ∧ c ≤ 'f' then some (c.toNat - 'a'.toNat + 10)
  else if 'A' ≤ c ∧ c ≤ 'F' then some (c.toNat - 'A'.toNat + 10)
  else none

/-- Percent-decoding on characters: each valid `%XX` hex escape becomes the
character with that code point (a byte-level model of CPython `unquote`);
invalid escapes are kept literally. -/
def unquoteL : List Char → List Char
  | [] => []
  | '%' :: h1 :: h2 :: rest =>
    match hexVal h1, hexVal h2 with
    | some a, some b => Char.ofNat (16 * a + b) :: unquoteL rest
    | _, _ => '%' :: unquoteL (h1 :: h2 :: rest)
  | c :: rest => c :: unquoteL rest

/-- Model of posix `urllib.request.url2pathname`, which is `unquote`. -/
def url2pathname (p : String) : String := String.mk (unquoteL p.toList)

/-! ### Python `dict` as an association list with in-place update semantics -/

/-- `d[k] = v`: replace the value at an existing key in place, else append. -/
def dictInsert (d : List (String × String)) (k v : String) :
    List (String × String) :=
  if d.any (fun p => p.1 == k) then
    d.map (fun p => if p.1 == k then (k, v) else p)
  else d ++ [(k, v)]

/-- `d.update(e)`: insert the pairs of `e` in order. -/
def dictUpdate (d e : List (String × String)) : List (String × String) :=
  e.foldl (fun acc p => dictInsert acc p.1 p.2) d

/-- `d.get(k)`: the value at the first (hence, under dict semantics, unique)
occurrence of `k`. -/
def dictLookup (d : List (String × String)) (k : String) : Option String :=
  (d.find? (fun p => p.1 == k)).map (fun p => p.2)

/-! ### Modelled collaborators of the translator -/

/-- Modelled from the spec: `file_utils.path_to_local_file_uri`
(`mlflow.utils.file_utils`, not under `src/`).  Spec section 4.3: the
non-sqlite local rewrite is "a plain file URI pointing at the
container-internal path". -/
def path_to_local_file_uri (path : String) : String := "file://" ++ path

/-- Modelled from the spec: `file_utils.path_to_local_sqlite_uri`
(`mlflow.utils.file_utils`, not under `src/`).  Spec section 4.3: the sqlite
local rewrite is "a SQLite-style URI pointing at the container-internal
path". -/
def path_to_local_sqlite_uri (path : String) : String := "sqlite://" ++ path

/-! ### The tracking-endpoint translator (`src/mlflow/projects/docker.py`) -/

/-- Embeds `_get_local_uri_or_none`.  The Python function returns the pair
`(None, None)` or `(path, uri)`; both slots are `None` together, so the result
is modelled as `Option (String × String)`. -/
def _get_local_uri_or_none (uri : String) : Option (String × String) :=
  if uri = "databricks" then none
  else
    let parsed_uri := urlparse uri
    if parsed_uri.netloc = "" ∧
        parsed_uri.scheme ∈ (["", "file", "sqlite"] : List String) then
      let path := url2pathname parsed_uri.path
      let uri1 :=
        if parsed_uri.scheme = "sqlite" then
          path_to_local_sqlite_uri _MLFLOW_DOCKER_TRACKING_DIR_PATH
        else path_to_local_file_uri _MLFLOW_DOCKER_TRACKING_DIR_PATH
      some (path, uri1)
    else none

/-- Embeds `get_docker_tracking_cmd_and_envs`.  The platform-credential
collaborator `get_databricks_env_vars` (`mlflow.projects.utils`, not under
`src/`; spec section 6: `env_vars_for(tracking_uri) -> mapping`) is the
parameter `get_databricks_env_vars`, whose result is read as a Python dict
(association list with unique keys). -/
def get_docker_tracking_cmd_and_envs
    (get_databricks_env_vars : String → List (String × String))
    (tracking_uri : String) : List String × List (String × String) :=
  let cmds : List String := []
  let env_vars : List (String × String) := []
  match _get_local_uri_or_none tracking_uri with
  | some (local_path, container_tracking_uri) =>
    let cmds := ["-v", local_path ++ ":" ++ _MLFLOW_DOCKER_TRACKING_DIR_PATH]
    let env_vars := dictInsert env_vars _TRACKING_URI_ENV_VAR container_tracking_uri
    (cmds, dictUpdate env_vars (get_databricks_env_vars tracking_uri))
  | none => (cmds, dictUpdate env_vars (get_databricks_env_vars tracking_uri))

/-! ### The image-tag deriver (`src/mlflow/projects/docker.py`) -/

/-- Embeds `_get_docker_image_uri`.  The call `_get_git_commit(work_dir)` is
an external collaborator (`mlflow.tracking.context.git_context`, not under
`src/`; spec section 6: `latest_revision(path) -> revision_id | absent`) and
is passed as `git_commit` (`none` for Python `None`).  Python's truthiness
test `if git_commit` also treats the empty string as absent. -/
def _get_docker_image_uri (repository_uri : String) (git_commit : Option String) :
    String :=
  let repository_uri := if repository_uri ≠ "" then repository_uri else "docker-project"
  let version_string :=
    match git_commit with
    | some c => if c ≠ "" then ":" ++ String.mk (c.toList.take 7) else ""
    | none => ""
  repository_uri ++ version_string

/-! ### Filesystem model for the build-context assembler

A directory tree is a finite labelled tree; the mutable filesystem state the
claims observe is the set of existing staging directories (by name).  Each
fallible operation (`shutil.copytree`, the manifest write, `make_tarfile`)
gets an explicit failure oracle standing for external I/O errors (permission,
disk full, ...); its structural failure conditions (source not a directory,
opening a directory for writing) are modelled directly. -/

inductive FTree where
  | file (content : String) : FTree
  | dir (entries : List (String × FTree)) : FTree

/-- Place a file at name `k` inside directory entries: `open(path, "w")`
overwrites an existing file entry in place, else creates a new entry. -/
def entriesInsert (es : List (String × FTree)) (k : String) (v : FTree) :
    List (String × FTree) :=
  if es.any (fun p => p.1 == k) then
    es.map (fun p => if p.1 == k then (k, v) else p)
  else es ++ [(k, v)]

/-- Look up a name among directory entries. -/
def entriesLookup (es : List (String × FTree)) (k : String) : Option FTree :=
  (es.find? (fun p => p.1 == k)).map (fun p => p.2)

/-- `open(os.path.join(dst_path, name), "w")` fails when an existing entry at
that name is a directory (`IsADirectoryError`); otherwise the write succeeds
structurally. -/
def writeOk (es : List (String × FTree)) (k : String) : Bool :=
  match entriesLookup es k with
  | some (.dir _) => false
  | _ => true

/-- A build-context archive.  Modelled from the spec:
`file_utils.make_tarfile(output_filename, source_dir, archive_name)`
(`mlflow.utils.file_utils`, not under `src/`) produces a standard tar in a
gzip-compatible stream (spec section 4.2 step 4) whose single root entry is
the given archive name holding the source tree (spec section 6: the archive
root directory name is the literal passed as `archive_name`). -/
structure TarArchive where
  gzipStream : Bool
  rootName : String
  rootTree : FTree

/-- Modelled from the spec: `file_utils.make_tarfile` (see `TarArchive`). -/
def make_tarfile (source_dir : FTree) (archive_name : String) : TarArchive :=
  { gzipStream := true, rootName := archive_name, rootTree := source_dir }

/-- Failure oracle for the three fallible steps of `_create_docker_build_ctx`:
`shutil.copytree`, the manifest write, and the archive step. -/
structure FailSpec where
  copyFails : Bool
  writeFails : Bool
  tarFails : Bool

def noFail : FailSpec := ⟨false, false, false⟩

/-- Outcome of `_create_docker_build_ctx`: the returned archive path and
archive (or a propagated I/O error), and the set of staging directories that
exist after the call. -/
structure CtxOutcome where
  result : Except Unit (String × TarArchive)
  dirsAfter : List String

/-- Embeds `_create_docker_build_ctx`.  `tmpName` is the fresh staging
directory chosen by `tempfile.mkdtemp()`, `result_path` the fresh file from
`tempfile.mkstemp()`, `dirs` the staging directories existing before the
call.  The `try`/`finally` is explicit: the body's `Except` result is
computed first and `shutil.rmtree(directory)` runs on every path before the
result (or error) is surfaced. -/
def _create_docker_build_ctx (fail : FailSpec) (tmpName result_path : String)
    (work_dir : FTree) (dockerfile_contents : String) (dirs : List String) :
    CtxOutcome :=
  let dirs1 := tmpName :: dirs
  let body : Except Unit (String × TarArchive) :=
    if fail.copyFails then .error ()
    else
      match work_dir with
      | .file _ => .error ()
      | .dir es =>
        if fail.writeFails then .error ()
        else if writeOk es _GENERATED_DOCKERFILE_NAME = false then .error ()
        else
          let dst := FTree.dir
            (entriesInsert es _GENERATED_DOCKERFILE_NAME (.file dockerfile_contents))
          if fail.tarFails then .error ()
          else .ok (result_path, make_tarfile dst _PROJECT_TAR_ARCHIVE_NAME)
  { result := body, dirsAfter := dirs1.erase tmpName }

/-- The archive produced by a `_create_docker_build_ctx` outcome, when any. -/
def ctxArchive (o : CtxOutcome) : Option TarArchive :=
  match o.result with
  | .ok pr => some pr.2
  | .error _ => none

/-! ### `build_docker_image` (`src/mlflow/projects/docker.py`) -/

/-- Modelled from the spec: `MLFLOW_DOCKER_WORKDIR_PATH`
(`mlflow.projects.utils`, not under `src/`), the container workdir literal
interpolated into the generated manifest. -/
def MLFLOW_DOCKER_WORKDIR_PATH : String := "/mlflow/projects/code"

/-- Modelled from the spec: tag key `MLFLOW_DOCKER_IMAGE_URI`
(`mlflow.utils.mlflow_tags`, not under `src/`); the metadata-tagging client is
called with it once per successful build (spec section 6). -/
def MLFLOW_DOCKER_IMAGE_URI : String := "mlflow.docker.image.uri"

/-- Modelled from the spec: tag key `MLFLOW_DOCKER_IMAGE_ID`
(`mlflow.utils.mlflow_tags`, not under `src/`). -/
def MLFLOW_DOCKER_IMAGE_ID : String := "mlflow.docker.image.id"

/-- A docker image handle as returned by the image-build collaborator. -/
structure Image where
  id : String

/-- External collaborators and oracles of one `build_docker_image` call:
the git query result, the image returned by a successful
`client.images.build`, whether `os.remove(build_ctx_path)` raises, the
failure oracle for context assembly, and the fresh temporary names. -/
structure BuildEnv where
  git_commit : Option String
  built_image : Image
  remove_fails : Bool
  ctx_fail : FailSpec
  tmp_name : String
  ctx_path : String

/-- Observable outcome of `build_docker_image`: the returned image (or a
propagated error), the `set_tag(run_id, key, value)` calls made, in order,
and the staging directories existing afterwards. -/
structure BuildOutcome where
  result : Except Unit Image
  tags : List (String × String × String)
  dirsAfter : List String

/-- Embeds `build_docker_image`.  The docker build collaborator is taken as
succeeding with `env.built_image` (the claim under verification concerns the
path after a successful build); the `try: os.remove(...) except Exception:`
is the explicit match on `remove_result`, both branches of which continue to
the tagging calls and the return. -/
def build_docker_image (env : BuildEnv) (dirs : List String)
    (work_dir : FTree) (repository_uri base_image run_id : String) :
    BuildOutcome :=
  let image_uri := _get_docker_image_uri repository_uri env.git_commit
  let dockerfile :=
    "FROM " ++ base_image ++ "\n" ++
    "COPY " ++ _PROJECT_TAR_ARCHIVE_NAME ++ "/ " ++ MLFLOW_DOCKER_WORKDIR_PATH ++ "\n" ++
    "WORKDIR " ++ MLFLOW_DOCKER_WORKDIR_PATH ++ "\n"
  let ctx := _create_docker_build_ctx env.ctx_fail env.tmp_name env.ctx_path
    work_dir dockerfile dirs
  match ctx.result with
  | .error e => { result := .error e, tags := [], dirsAfter := ctx.dirsAfter }
  | .ok _ =>
    let image := env.built_image
    let remove_result : Except Unit Unit :=
      if env.remove_fails then .error () else .ok ()
    match remove_result with
    | .error _ =>
      { result := .ok image
        tags := [(run_id, MLFLOW_DOCKER_IMAGE_URI, image_uri),
                 (run_id, MLFLOW_DOCKER_IMAGE_ID, image.id)]
        dirsAfter := ctx.dirsAfter }
    | .ok _ =>
      { result := .ok image
        tags := [(run_id, MLFLOW_DOCKER_IMAGE_URI, image_uri),
                 (run_id, MLFLOW_DOCKER_IMAGE_ID, image.id)]
        dirsAfter := ctx.dirsAfter }

end MlflowDocker

namespace MlflowDocker

theorem find?_assocInsertMap {β : Type} (k : String) (v : β) (d : List (String × β)) :
    (d.map (fun p => if p.1 == k then (k, v) else p)).find? (fun p => p.1 == k) =
      (if d.any (fun p => p.1 == k) then some (k, v) else none) := by
  induction d with
  | nil => simp
  | cons p t ih =>
    by_cases hp : p.1 == k
    · simp [hp, List.find?]
    · simp only [List.map_cons, List.any_cons, hp, Bool.false_or]
      rw [List.find?_cons_of_neg, ih]
      simp [hp]

theorem find?_assocAppend {β : Type} (k : String) (v : β) (d : List (String × β))
    (h : d.any (fun p => p.1 == k) = false) :
    ((d ++ [(k, v)]).find? (fun p => p.1 == k)) = some (k, v) := by
  induction d with
  | nil => simp [List.find?]
  | cons p t ih =>
    simp only [List.any_cons, Bool.or_eq_false_iff] at h
    simp only [List.cons_append]
    rw [List.find?_cons_of_neg]
    · exact ih h.2
    · simp [h.1]

theorem dictLookup_dictInsert_self (d : List (String × String)) (k v : String) :
    dictLookup (dictInsert d k v) k = some v := by
  unfold dictLookup dictInsert
  by_cases h : d.any (fun p => p.1 == k)
  · rw [if_pos h, find?_assocInsertMap, if_pos h]
    rfl
  · rw [if_neg h, find?_assocAppend k v d (Bool.eq_false_iff.mpr h)]
    rfl

theorem find?_assocInsertMap_ne {β : Type} (j k : String) (v : β) (hjk : j ≠ k)
    (d : List (String × β)) :
    ((d.map (fun p => if p.1 == j then (j, v) else p)).find? (fun p => p.1 == k)) =
      d.find? (fun p => p.1 == k) := by
  induction d with
  | nil => rfl
  | cons p t ih =>
    by_cases hp : p.1 == j
    · have hp1 : p.1 = j := beq_iff_eq.mp hp
      simp only [List.map_cons, hp, if_true]
      rw [List.find?_cons_of_neg, List.find?_cons_of_neg, ih]
      all_goals simp [hp1, hjk]
    · simp only [List.map_cons, hp, Bool.false_eq_true, if_false]
      by_cases hk : p.1 == k
      · rw [List.find?_cons_of_pos, List.find?_cons_of_pos]
        all_goals exact hk
      · rw [List.find?_cons_of_neg, List.find?_cons_of_neg, ih]
        all_goals exact hk

theorem find?_assocAppend_ne {β : Type} (j k : String) (v : β) (hjk : j ≠ k)
    (d : List (String × β)) :
    ((d ++ [(j, v)]).find? (fun p => p.1 == k)) = d.find? (fun p => p.1 == k) := by
  induction d with
  | nil =>
    simp only [List.nil_append]
    rw [List.find?_cons_of_neg]
    simp [hjk]
  | cons p t ih =>
    by_cases hk : p.1 == k
    · rw [List.cons_append, List.find?_cons_of_pos, List.find?_cons_of_pos]
      all_goals exact hk
    · rw [List.cons_append, List.find?_cons_of_neg, List.find?_cons_of_neg, ih]
      all_goals exact hk

theorem dictLookup_dictInsert_ne (d : List (String × String)) (j k v : String)
    (hjk : j ≠ k) : dictLookup (dictInsert d j v) k = dictLookup d k := by
  unfold dictLookup dictInsert
  by_cases h : d.any (fun p => p.1 == j)
  · rw [if_pos h, find?_assocInsertMap_ne j k v hjk]
  · rw [if_neg h, find?_assocAppend_ne j k v hjk]

theorem dictLookup_dictUpdate_not_mem (e : List (String × String)) (k : String)
    (hk : ∀ p ∈ e, p.1 ≠ k) :
    ∀ d, dictLookup (dictUpdate d e) k = dictLookup d k := by
  induction e with
  | nil => intro d; rfl
  | cons p t ih =>
    intro d
    have h1 : p.1 ≠ k := hk p (List.mem_cons_self p t)
    show dictLookup (dictUpdate (dictInsert d p.1 p.2) t) k = dictLookup d k
    rw [ih (fun q hq => hk q (List.mem_cons_of_mem p hq)),
      dictLookup_dictInsert_ne d p.1 k p.2 h1]

theorem dictLookup_dictUpdate_mem (e : List (String × String)) (k v : String)
    (hnd : (e.map Prod.fst).Nodup) (hmem : (k, v) ∈ e) :
    ∀ d, dictLookup (dictUpdate d e) k = some v := by
  induction e with
  | nil => cases hmem
  | cons p t ih =>
    intro d
    rw [List.map_cons] at hnd
    have hnd2 := List.nodup_cons.mp hnd
    rcases List.mem_cons.mp hmem with h | h
    · subst h
      have hkt : ∀ q ∈ t, q.1 ≠ k := by
        intro q hq hqk
        apply hnd2.1
        have hmm := List.mem_map_of_mem Prod.fst hq
        rw [hqk] at hmm
        exact hmm
      show dictLookup (dictUpdate (dictInsert d k v) t) k = some v
      rw [dictLookup_dictUpdate_not_mem t k hkt, dictLookup_dictInsert_self]
    · show dictLookup (dictUpdate (dictInsert d p.1 p.2) t) k = some v
      exact ih hnd2.2 h (dictInsert d p.1 p.2)

theorem entriesLookup_entriesInsert_self (es : List (String × FTree)) (k : String)
    (v : FTree) : entriesLookup (entriesInsert es k v) k = some v := by
  unfold entriesLookup entriesInsert
  by_cases h : es.any (fun p => p.1 == k)
  · rw [if_pos h, find?_assocInsertMap, if_pos h]
    rfl
  · rw [if_neg h, find?_assocAppend k v es (Bool.eq_false_iff.mpr h)]
    rfl

/-- Claim C3: for every repository-uri string, the derived image tag equals the
repository-uri (or the default literal "docker-project" when the repository-uri
is empty), suffixed by a colon plus exactly the first 7 characters of the
revision identifier when a (nonempty) revision is available — the whole
identifier when it is shorter than 7 characters, as the `min` conjunct
records — and with no revision segment at all when no revision is
available. -/
theorem image_tag_derivation (repository_uri git_commit : String)
    (h : git_commit ≠ "") :
    _get_docker_image_uri repository_uri none =
      (if repository_uri = "" then "docker-project" else repository_uri) ∧
    _get_docker_image_uri repository_uri (some git_commit) =
      (if repository_uri = "" then "docker-project" else repository_uri) ++
        (":" ++ String.mk (git_commit.toList.take 7)) ∧
    (git_commit.toList.take 7).length = min 7 git_commit.toList.length := by
  refine ⟨?_, ?_, ?_⟩
  · unfold _get_docker_image_uri
    by_cases hr : repository_uri = "" <;> simp [hr]
  · unfold _get_docker_image_uri
    by_cases hr : repository_uri = "" <;> simp [hr, h]
  · exact List.length_take 7 git_commit.toList

theorem image_tag_derivation_witness :
    ("0123456789abcdef" : String) ≠ "" ∧
    (_get_docker_image_uri "repo/img" none =
      (if ("repo/img" : String) = "" then "docker-project" else "repo/img") ∧
    _get_docker_image_uri "repo/img" (some "0123456789abcdef") =
      (if ("repo/img" : String) = "" then "docker-project" else "repo/img") ++
        (":" ++ String.mk (("0123456789abcdef" : String).toList.take 7)) ∧
    (("0123456789abcdef" : String).toList.take 7).length =
      min 7 ("0123456789abcdef" : String).toList.length) :=
  ⟨by decide, image_tag_derivation "repo/img" "0123456789abcdef" (by decide)⟩

/-- Claim C2: for every source directory, manifest-contents string, staging
directory name and failure pattern (success, copy failure, manifest-write
failure, archive failure), the set of existing staging directories after
`_create_docker_build_ctx` returns equals the set before the call; in
particular the staging directory created by the call does not survive it,
and existence before the call equals existence after the call. -/
theorem build_ctx_cleanup (fail : FailSpec) (tmpName result_path : String)
    (work_dir : FTree) (dockerfile_contents : String) (dirs : List String) :
    (_create_docker_build_ctx fail tmpName result_path work_dir
        dockerfile_contents dirs).dirsAfter = dirs ∧
    ((tmpName ∈ (_create_docker_build_ctx fail tmpName result_path work_dir
        dockerfile_contents dirs).dirsAfter) ↔ tmpName ∈ dirs) := by
  have h : (_create_docker_build_ctx fail tmpName result_path work_dir
      dockerfile_contents dirs).dirsAfter = dirs := by
    unfold _create_docker_build_ctx
    exact List.erase_cons_head tmpName dirs
  exact ⟨h, by rw [h]⟩

/-- Claim C8: running `_create_docker_build_ctx` twice on an unchanged source
directory with the same manifest-contents string (fresh temporary names each
time, no I/O failures) produces two archives with identical extracted
contents; timestamps are not part of the archive model, so equality is
contents-equality exactly as the claim allows. -/
theorem build_ctx_idempotent (t1 r1 t2 r2 : String) (work_dir : FTree)
    (dockerfile_contents : String) (d1 d2 : List String) :
    ctxArchive (_create_docker_build_ctx noFail t1 r1 work_dir dockerfile_contents d1) =
      ctxArchive (_create_docker_build_ctx noFail t2 r2 work_dir dockerfile_contents d2) := by
  unfold ctxArchive _create_docker_build_ctx
  cases work_dir with
  | file c => rfl
  | dir es =>
    by_cases hok : writeOk es _GENERATED_DOCKERFILE_NAME = false <;>
      simp [hok, noFail]

/-- Claim C5 (amended): for every source directory and manifest contents, the
archive produced by `_create_docker_build_ctx` on the success path is a
gzip-compatible tar whose single root entry is named by the fixed
archive-name literal `mlflow-project-docker-build-context` — the
`archive_name` argument, not the staging subdirectory\'s fixed name
`mlflow-project-contents` — and the copied tree inside it contains the
manifest under the fixed file name `Dockerfile.mlflow-autogenerated`. -/
theorem archive_root_name_and_manifest (fail : FailSpec) (tmpName result_path : String)
    (work_dir : FTree) (dockerfile_contents : String) (dirs : List String)
    (p : String) (a : TarArchive)
    (h : (_create_docker_build_ctx fail tmpName result_path work_dir
        dockerfile_contents dirs).result = .ok (p, a)) :
    a.gzipStream = true ∧ a.rootName = _PROJECT_TAR_ARCHIVE_NAME ∧
    ∃ es, work_dir = FTree.dir es ∧
      a.rootTree = FTree.dir
        (entriesInsert es _GENERATED_DOCKERFILE_NAME (.file dockerfile_contents)) ∧
      entriesLookup (entriesInsert es _GENERATED_DOCKERFILE_NAME
          (.file dockerfile_contents)) _GENERATED_DOCKERFILE_NAME =
        some (.file dockerfile_contents) := by
  unfold _create_docker_build_ctx at h
  cases hcb : fail.copyFails with
  | true => simp [hcb] at h
  | false =>
    cases work_dir with
    | file c => simp [hcb] at h
    | dir es =>
      cases hwb : fail.writeFails with
      | true => simp [hcb, hwb] at h
      | false =>
        cases hokb : writeOk es _GENERATED_DOCKERFILE_NAME with
        | false => simp [hcb, hwb, hokb] at h
        | true =>
          cases htb : fail.tarFails with
          | true => simp [hcb, hwb, hokb, htb] at h
          | false =>
            simp only [hcb, hwb, hokb, htb, Bool.false_eq_true, if_false,
              Bool.true_eq_false, make_tarfile, Except.ok.injEq,
              Prod.mk.injEq] at h
            obtain ⟨hp, ha⟩ := h
            subst ha
            exact ⟨rfl, rfl, es, rfl, rfl,
              entriesLookup_entriesInsert_self es _GENERATED_DOCKERFILE_NAME
                (.file dockerfile_contents)⟩

theorem archive_root_name_and_manifest_witness :
    ((_create_docker_build_ctx noFail "/tmp/stage1" "/tmp/ctx1"
        (FTree.dir [("main.py", FTree.file "print(1)")]) "FROM x\n" []).result =
      .ok ("/tmp/ctx1", make_tarfile
        (FTree.dir (entriesInsert [("main.py", FTree.file "print(1)")]
          _GENERATED_DOCKERFILE_NAME (.file "FROM x\n"))) _PROJECT_TAR_ARCHIVE_NAME)) ∧
    ((make_tarfile
        (FTree.dir (entriesInsert [("main.py", FTree.file "print(1)")]
          _GENERATED_DOCKERFILE_NAME (.file "FROM x\n"))) _PROJECT_TAR_ARCHIVE_NAME).gzipStream = true ∧
      (make_tarfile
        (FTree.dir (entriesInsert [("main.py", FTree.file "print(1)")]
          _GENERATED_DOCKERFILE_NAME (.file "FROM x\n"))) _PROJECT_TAR_ARCHIVE_NAME).rootName =
        _PROJECT_TAR_ARCHIVE_NAME ∧
      ∃ es, FTree.dir [("main.py", FTree.file "print(1)")] = FTree.dir es ∧
        (make_tarfile
          (FTree.dir (entriesInsert [("main.py", FTree.file "print(1)")]
            _GENERATED_DOCKERFILE_NAME (.file "FROM x\n"))) _PROJECT_TAR_ARCHIVE_NAME).rootTree =
          FTree.dir (entriesInsert es _GENERATED_DOCKERFILE_NAME (.file "FROM x\n")) ∧
        entriesLookup (entriesInsert es _GENERATED_DOCKERFILE_NAME (.file "FROM x\n"))
            _GENERATED_DOCKERFILE_NAME = some (.file "FROM x\n")) :=
  ⟨rfl, archive_root_name_and_manifest noFail "/tmp/stage1" "/tmp/ctx1"
    (FTree.dir [("main.py", FTree.file "print(1)")]) "FROM x\n" [] "/tmp/ctx1"
    (make_tarfile (FTree.dir (entriesInsert [("main.py", FTree.file "print(1)")]
      _GENERATED_DOCKERFILE_NAME (.file "FROM x\n"))) _PROJECT_TAR_ARCHIVE_NAME) rfl⟩

/-- Claim C5 counterexample: on a concrete successful run, the archive root
entry is the archive-name literal `mlflow-project-docker-build-context`,
which is not the staging subdirectory\'s fixed name
`mlflow-project-contents`, so the root entry is not "named exactly by the
staging subdirectory\'s fixed name" as the claim states. -/
theorem archive_root_name_counterexample :
    Option.map TarArchive.rootName
        (ctxArchive (_create_docker_build_ctx noFail "/tmp/stage0" "/tmp/ctx0"
          (FTree.dir []) "FROM python\n" [])) = some _PROJECT_TAR_ARCHIVE_NAME ∧
    _PROJECT_TAR_ARCHIVE_NAME ≠ _STAGING_SUBDIR_NAME := by
  exact ⟨rfl, by decide⟩

/-- Claim C7: in `build_docker_image`, when deletion of the build-context
archive file fails after a successful image build, the failure is non-fatal:
no exception propagates from the deletion, the two metadata tags (image URI
and image identifier) are still set, and the image handle is still returned
to the caller. -/
theorem build_cleanup_failure_nonfatal (env : BuildEnv) (dirs : List String)
    (es : List (String × FTree)) (repository_uri base_image run_id : String)
    (hfail : env.ctx_fail = noFail)
    (hok : writeOk es _GENERATED_DOCKERFILE_NAME = true)
    (hrm : env.remove_fails = true) :
    (build_docker_image env dirs (FTree.dir es) repository_uri base_image
        run_id).result = .ok env.built_image ∧
    (build_docker_image env dirs (FTree.dir es) repository_uri base_image
        run_id).tags =
      [(run_id, MLFLOW_DOCKER_IMAGE_URI,
          _get_docker_image_uri repository_uri env.git_commit),
       (run_id, MLFLOW_DOCKER_IMAGE_ID, env.built_image.id)] := by
  unfold build_docker_image _create_docker_build_ctx
  simp [hfail, hok, hrm, noFail]

theorem build_cleanup_failure_nonfatal_witness :
    (BuildEnv.mk (some "0123456789abcdef") (Image.mk "sha256:77af") true noFail
        "/tmp/s" "/tmp/c").ctx_fail = noFail ∧
    writeOk ([("main.py", FTree.file "print(1)")]) _GENERATED_DOCKERFILE_NAME = true ∧
    (BuildEnv.mk (some "0123456789abcdef") (Image.mk "sha256:77af") true noFail
        "/tmp/s" "/tmp/c").remove_fails = true ∧
    ((build_docker_image (BuildEnv.mk (some "0123456789abcdef")
        (Image.mk "sha256:77af") true noFail "/tmp/s" "/tmp/c") []
        (FTree.dir [("main.py", FTree.file "print(1)")]) "repo/img" "python:3.8"
        "run42").result = .ok (Image.mk "sha256:77af") ∧
      (build_docker_image (BuildEnv.mk (some "0123456789abcdef")
        (Image.mk "sha256:77af") true noFail "/tmp/s" "/tmp/c") []
        (FTree.dir [("main.py", FTree.file "print(1)")]) "repo/img" "python:3.8"
        "run42").tags =
        [("run42", MLFLOW_DOCKER_IMAGE_URI,
            _get_docker_image_uri "repo/img" (some "0123456789abcdef")),
         ("run42", MLFLOW_DOCKER_IMAGE_ID, (Image.mk "sha256:77af").id)]) :=
  ⟨rfl, rfl, rfl, build_cleanup_failure_nonfatal
    (BuildEnv.mk (some "0123456789abcdef") (Image.mk "sha256:77af") true noFail
      "/tmp/s" "/tmp/c") [] [("main.py", FTree.file "print(1)")] "repo/img"
    "python:3.8" "run42" rfl rfl rfl⟩

/-- Helper: on a non-databricks URI with empty netloc and a scheme among the
local ones, `_get_local_uri_or_none` returns the decoded path and the
rewritten container-internal URI. -/
theorem local_uri_some (uri : String) (hdb : uri ≠ "databricks")
    (hnet : (urlparse uri).netloc = "")
    (hscheme : (urlparse uri).scheme ∈ (["", "file", "sqlite"] : List String)) :
    _get_local_uri_or_none uri = some (url2pathname (urlparse uri).path,
      if (urlparse uri).scheme = "sqlite" then
        path_to_local_sqlite_uri _MLFLOW_DOCKER_TRACKING_DIR_PATH
      else path_to_local_file_uri _MLFLOW_DOCKER_TRACKING_DIR_PATH) := by
  simp only [_get_local_uri_or_none, hdb, if_neg, ite_false]
  rw [if_pos ⟨hnet, hscheme⟩]

/-- Claim C1: for every tracking URI string that parses with no
network-location component and whose scheme is empty, `file`, or `sqlite`
(and is not the literal `databricks`), `get_docker_tracking_cmd_and_envs`
returns exactly one mount argument pair mapping the decoded path component of
the URI to the container path `/mlflow/tmp/mlruns`, and sets the tracking-URI
environment variable to a SQLite-style URI referencing `/mlflow/tmp/mlruns`
when the scheme is `sqlite`, and to a plain file URI referencing
`/mlflow/tmp/mlruns` otherwise (under the standing assumption that the
platform-credential provider does not itself bind the tracking-URI key,
whose overwrite behaviour claim C10 covers). -/
theorem local_tracking_uri_translation
    (get_databricks_env_vars : String → List (String × String)) (uri : String)
    (hdb : uri ≠ "databricks")
    (hnet : (urlparse uri).netloc = "")
    (hscheme : (urlparse uri).scheme ∈ (["", "file", "sqlite"] : List String))
    (hcred : ∀ p ∈ get_databricks_env_vars uri, p.1 ≠ _TRACKING_URI_ENV_VAR) :
    (get_docker_tracking_cmd_and_envs get_databricks_env_vars uri).1 =
      ["-v", url2pathname (urlparse uri).path ++ ":" ++
        _MLFLOW_DOCKER_TRACKING_DIR_PATH] ∧
    dictLookup (get_docker_tracking_cmd_and_envs get_databricks_env_vars uri).2
        _TRACKING_URI_ENV_VAR =
      some (if (urlparse uri).scheme = "sqlite" then
              path_to_local_sqlite_uri _MLFLOW_DOCKER_TRACKING_DIR_PATH
            else path_to_local_file_uri _MLFLOW_DOCKER_TRACKING_DIR_PATH) ∧
    path_to_local_sqlite_uri _MLFLOW_DOCKER_TRACKING_DIR_PATH =
      "sqlite:///mlflow/tmp/mlruns" ∧
    path_to_local_file_uri _MLFLOW_DOCKER_TRACKING_DIR_PATH =
      "file:///mlflow/tmp/mlruns" := by
  have hloc := local_uri_some uri hdb hnet hscheme
  unfold get_docker_tracking_cmd_and_envs
  rw [hloc]
  refine ⟨rfl, ?_, rfl, rfl⟩
  rw [dictLookup_dictUpdate_not_mem (get_databricks_env_vars uri)
    _TRACKING_URI_ENV_VAR hcred, dictLookup_dictInsert_self]

theorem local_tracking_uri_translation_witness :
    ("sqlite:///tmp/mlruns.db" : String) ≠ "databricks" ∧
    (urlparse "sqlite:///tmp/mlruns.db").netloc = "" ∧
    (urlparse "sqlite:///tmp/mlruns.db").scheme ∈ (["", "file", "sqlite"] : List String) ∧
    ((get_docker_tracking_cmd_and_envs (fun _ => []) "sqlite:///tmp/mlruns.db").1 =
      ["-v", url2pathname (urlparse "sqlite:///tmp/mlruns.db").path ++ ":" ++
        _MLFLOW_DOCKER_TRACKING_DIR_PATH] ∧
    dictLookup (get_docker_tracking_cmd_and_envs (fun _ => [])
        "sqlite:///tmp/mlruns.db").2 _TRACKING_URI_ENV_VAR =
      some (if (urlparse "sqlite:///tmp/mlruns.db").scheme = "sqlite" then
              path_to_local_sqlite_uri _MLFLOW_DOCKER_TRACKING_DIR_PATH
            else path_to_local_file_uri _MLFLOW_DOCKER_TRACKING_DIR_PATH) ∧
    path_to_local_sqlite_uri _MLFLOW_DOCKER_TRACKING_DIR_PATH =
      "sqlite:///mlflow/tmp/mlruns" ∧
    path_to_local_file_uri _MLFLOW_DOCKER_TRACKING_DIR_PATH =
      "file:///mlflow/tmp/mlruns") :=
  ⟨by decide, by decide, by decide,
    local_tracking_uri_translation (fun _ => []) "sqlite:///tmp/mlruns.db"
      (by decide) (by decide) (by decide) (by intro p hp; cases hp)⟩

/-- Claim C4: for every tracking URI that has a network-location component, or
has a scheme other than empty, `file`, `sqlite`, or is the literal
`databricks`, the translator returns an empty mount-argument list and does
not set the tracking-URI environment variable; the returned environment
mapping is exactly the dict of the platform-credential variables. -/
theorem nonlocal_tracking_uri_translation
    (get_databricks_env_vars : String → List (String × String)) (uri : String)
    (h : uri = "databricks" ∨ (urlparse uri).netloc ≠ "" ∨
      (urlparse uri).scheme ∉ (["", "file", "sqlite"] : List String)) :
    get_docker_tracking_cmd_and_envs get_databricks_env_vars uri =
      ([], dictUpdate [] (get_databricks_env_vars uri)) := by
  have hloc : _get_local_uri_or_none uri = none := by
    by_cases hdb : uri = "databricks"
    · simp only [_get_local_uri_or_none]
      rw [if_pos hdb]
    · simp only [_get_local_uri_or_none]
      rw [if_neg hdb, if_neg]
      intro hc
      rcases h with h | h | h
      · exact hdb h
      · exact h hc.1
      · exact h hc.2
  unfold get_docker_tracking_cmd_and_envs
  rw [hloc]

theorem nonlocal_tracking_uri_translation_witness :
    (("databricks" : String) = "databricks" ∨
      (urlparse "databricks").netloc ≠ "" ∨
      (urlparse "databricks").scheme ∉ (["", "file", "sqlite"] : List String)) ∧
    get_docker_tracking_cmd_and_envs (fun u => [("DATABRICKS_HOST", u)])
        "databricks" =
      ([], dictUpdate [] ((fun u => [("DATABRICKS_HOST", u)]) "databricks")) :=
  ⟨Or.inl rfl, nonlocal_tracking_uri_translation
    (fun u => [("DATABRICKS_HOST", u)]) "databricks" (Or.inl rfl)⟩

/-- Claim C6: for every tracking URI (local, remote, `databricks`, or
otherwise), the environment mapping returned by
`get_docker_tracking_cmd_and_envs` includes every name/value pair that the
platform-credential provider returns for that URI (as a Python dict, its
keys are unique): the credential contribution is unconditional in both the
local and the non-local branch. -/
theorem credential_envs_always_included
    (get_databricks_env_vars : String → List (String × String)) (uri k v : String)
    (hnd : ((get_databricks_env_vars uri).map Prod.fst).Nodup)
    (hmem : (k, v) ∈ get_databricks_env_vars uri) :
    dictLookup (get_docker_tracking_cmd_and_envs get_databricks_env_vars uri).2 k =
      some v := by
  unfold get_docker_tracking_cmd_and_envs
  cases hl : _get_local_uri_or_none uri with
  | none =>
    exact dictLookup_dictUpdate_mem (get_databricks_env_vars uri) k v hnd hmem []
  | some pr =>
    exact dictLookup_dictUpdate_mem (get_databricks_env_vars uri) k v hnd hmem
      (dictInsert [] _TRACKING_URI_ENV_VAR pr.2)

theorem credential_envs_always_included_witness :
    (((fun _ : String => [("DATABRICKS_TOKEN", "tok")]) "databricks").map
      Prod.fst).Nodup ∧
    (("DATABRICKS_TOKEN", "tok") ∈
      (fun _ : String => [("DATABRICKS_TOKEN", "tok")]) "databricks") ∧
    dictLookup (get_docker_tracking_cmd_and_envs
        (fun _ => [("DATABRICKS_TOKEN", "tok")]) "databricks").2
        "DATABRICKS_TOKEN" = some "tok" :=
  ⟨by decide, by decide, credential_envs_always_included
    (fun _ => [("DATABRICKS_TOKEN", "tok")]) "databricks" "DATABRICKS_TOKEN"
    "tok" (by decide) (by decide)⟩

/-- Claim C10: when the platform-credential provider\'s mapping contains the
tracking-URI environment-variable key itself, its value is the one found in
the result of `get_docker_tracking_cmd_and_envs` — it overwrites the
rewritten container-internal tracking URI, because the credential mapping is
merged after the URI-rewrite variable is set. -/
theorem credential_env_overwrites_tracking_var
    (get_databricks_env_vars : String → List (String × String))
    (uri v lp cu : String)
    (hloc : _get_local_uri_or_none uri = some (lp, cu))
    (hnd : ((get_databricks_env_vars uri).map Prod.fst).Nodup)
    (hmem : (_TRACKING_URI_ENV_VAR, v) ∈ get_databricks_env_vars uri) :
    dictLookup (get_docker_tracking_cmd_and_envs get_databricks_env_vars uri).2
      _TRACKING_URI_ENV_VAR = some v := by
  unfold get_docker_tracking_cmd_and_envs
  rw [hloc]
  exact dictLookup_dictUpdate_mem (get_databricks_env_vars uri)
    _TRACKING_URI_ENV_VAR v hnd hmem
    (dictInsert [] _TRACKING_URI_ENV_VAR cu)

theorem credential_env_overwrites_tracking_var_witness :
    _get_local_uri_or_none "" =
      some ("", path_to_local_file_uri _MLFLOW_DOCKER_TRACKING_DIR_PATH) ∧
    (((fun _ : String => [(_TRACKING_URI_ENV_VAR, "http://other:5000")]) "").map
      Prod.fst).Nodup ∧
    ((_TRACKING_URI_ENV_VAR, "http://other:5000") ∈
      (fun _ : String => [(_TRACKING_URI_ENV_VAR, "http://other:5000")]) "") ∧
    dictLookup (get_docker_tracking_cmd_and_envs
        (fun _ => [(_TRACKING_URI_ENV_VAR, "http://other:5000")]) "").2
        _TRACKING_URI_ENV_VAR = some "http://other:5000" :=
  ⟨rfl, by decide, by decide, credential_env_overwrites_tracking_var
    (fun _ => [(_TRACKING_URI_ENV_VAR, "http://other:5000")]) ""
    "http://other:5000" "" (path_to_local_file_uri _MLFLOW_DOCKER_TRACKING_DIR_PATH)
    rfl (by decide) (by decide)⟩

/-- Claim C9 counterexample: the literal `databricks` is a bare path string
without a URI scheme (its parse has empty scheme and empty netloc), yet the
translator emits no mount argument at all, refuting the claim that every
bare scheme-less path string takes the local branch. -/
theorem bare_path_local_branch_counterexample :
    (urlparse "databricks").scheme = "" ∧ (urlparse "databricks").netloc = "" ∧
    (get_docker_tracking_cmd_and_envs (fun _ => []) "databricks").1 = [] := by
  exact ⟨rfl, rfl, rfl⟩

/-- Claim C9 (amended): for the empty-string tracking URI, and for any bare
path string without a URI scheme that is not the literal `databricks` and has
no network-location component, the translator takes the local branch: it
emits a mount argument pair whose host-path half is the URI\'s decoded path
component (the empty string for the empty URI, producing a mount argument
beginning with a colon), and sets the tracking-URI environment variable to a
file URI referencing `/mlflow/tmp/mlruns` (provider not binding the
tracking-URI key, as in C1). -/
theorem bare_path_local_branch
    (get_databricks_env_vars : String → List (String × String)) (uri : String)
    (hdb : uri ≠ "databricks")
    (hscheme : (urlparse uri).scheme = "")
    (hnet : (urlparse uri).netloc = "")
    (hcred : ∀ p ∈ get_databricks_env_vars uri, p.1 ≠ _TRACKING_URI_ENV_VAR) :
    (get_docker_tracking_cmd_and_envs get_databricks_env_vars uri).1 =
      ["-v", url2pathname (urlparse uri).path ++ ":" ++
        _MLFLOW_DOCKER_TRACKING_DIR_PATH] ∧
    dictLookup (get_docker_tracking_cmd_and_envs get_databricks_env_vars uri).2
        _TRACKING_URI_ENV_VAR =
      some (path_to_local_file_uri _MLFLOW_DOCKER_TRACKING_DIR_PATH) ∧
    (get_docker_tracking_cmd_and_envs get_databricks_env_vars "").1 =
      ["-v", ":" ++ _MLFLOW_DOCKER_TRACKING_DIR_PATH] := by
  have hmem : (urlparse uri).scheme ∈ (["", "file", "sqlite"] : List String) := by
    rw [hscheme]
    decide
  have hloc := local_uri_some uri hdb hnet hmem
  rw [hscheme] at hloc
  unfold get_docker_tracking_cmd_and_envs
  rw [hloc]
  refine ⟨rfl, ?_, rfl⟩
  rw [dictLookup_dictUpdate_not_mem (get_databricks_env_vars uri)
    _TRACKING_URI_ENV_VAR hcred, dictLookup_dictInsert_self, if_neg]
  decide

theorem bare_path_local_branch_witness :
    ("/tmp/mlruns" : String) ≠ "databricks" ∧
    (urlparse "/tmp/mlruns").scheme = "" ∧
    (urlparse "/tmp/mlruns").netloc = "" ∧
    ((get_docker_tracking_cmd_and_envs (fun _ => []) "/tmp/mlruns").1 =
      ["-v", url2pathname (urlparse "/tmp/mlruns").path ++ ":" ++
        _MLFLOW_DOCKER_TRACKING_DIR_PATH] ∧
    dictLookup (get_docker_tracking_cmd_and_envs (fun _ => []) "/tmp/mlruns").2
        _TRACKING_URI_ENV_VAR =
      some (path_to_local_file_uri _MLFLOW_DOCKER_TRACKING_DIR_PATH) ∧
    (get_docker_tracking_cmd_and_envs (fun _ : String => ([] : List (String × String))) "").1 =
      ["-v", ":" ++ _MLFLOW_DOCKER_TRACKING_DIR_PATH]) :=
  ⟨by decide, by decide, by decide,
    bare_path_local_branch (fun _ => []) "/tmp/mlruns" (by decide) (by decide)
      (by decide) (by intro p hp; cases hp)⟩

end MlflowDocker
